import Mathlib

/-!
Formal model (shallow embedding) of the Only Connect Database scraper
(src/scrape_ocdb.py) and proofs about its behaviour.

Modelling conventions:
- HTML documents are represented by their pre-extracted shape: the scraper only
  ever inspects a fixed set of tree queries (find a header, list the clue divs,
  read a cleaned text).  Each such query result is a field of an input
  structure, so every definition below mirrors the control flow of the Python
  function it is named after, over those query results.
- Text values are the results of clean_text (whitespace-normalised, entity
  decoded); they are plain Lean strings.
- requests / time.sleep are real I/O; the HTTP environment is modelled as a
  function from attempt index to the outcome of that attempt, and the sleeping in
  RateLimiter.wait is not modelled (it returns no value and affects no
  return value of the scraper).
- Python floats are modelled as exact rationals; the delay arithmetic uses
  only multiplication by constants and clamping, so the ordering facts proved
  here are the ones the float code computes up to rounding.
- Python `int | None` (and dict keys that may be absent) are modelled as
  Option; Python truthiness of such values is spelled out at each use site.
-/

/- ### Configuration constants (scrape_ocdb.py lines 33-46) -/

def MIN_DELAY : ℚ := 3/2

def MAX_DELAY : ℚ := 3

def BACKOFF_FACTOR : ℚ := 2

def MAX_RETRIES : Nat := 5

def GREEK_LETTERS : List String := ["Alpha", "Beta", "Gamma", "Delta", "Epsilon", "Zeta"]

def GREEK_SYMBOLS : List String := ["𝝰", "𝝱", "𝝲", "𝝳", "𝝴", "𝝵"]

def EGYPTIAN_GLYPHS : List String :=
  ["Two Reeds", "Horned Viper", "Lion", "Water", "Twisted Flax", "Eye of Horus"]

/- ### RateLimiter (lines 49-73)

Only the delay field matters for the contract of the controller: last_request and
wait() deal in wall-clock time and change no delay state.  The ceiling used by
failure() is MAX_DELAY * 10 = 30 seconds. -/

namespace RateLimiter

/-- line 68: self.delay = max(MIN_DELAY, self.delay * 0.9) -/
def success (delay : ℚ) : ℚ := max MIN_DELAY (delay * (9/10))

/-- line 72: self.delay = min(MAX_DELAY * 10, self.delay * BACKOFF_FACTOR) -/
def failure (delay : ℚ) : ℚ := min (MAX_DELAY * 10) (delay * BACKOFF_FACTOR)

end RateLimiter

/-- One call on the rate limiter: a success() or a failure(). -/
inductive RLEvent
  | success
  | failure

def RLEvent.apply : RLEvent → ℚ → ℚ
  | .success, d => RateLimiter.success d
  | .failure, d => RateLimiter.failure d

/-- Delay reached after a sequence of success()/failure() calls from delay d. -/
def rlRun (es : List RLEvent) (d : ℚ) : ℚ := es.foldl (fun d e => e.apply d) d

/- ### String helpers

Python substring membership (the `in` operator) and str.lower, modelled over
character lists so that they evaluate by kernel reduction. -/

/-- Python `needle in hay` on strings. -/
def strContains (hay needle : String) : Bool :=
  hay.toList.tails.any (fun t => needle.toList.isPrefixOf t)

/-- Python str.lower. -/
def strLower (s : String) : String := ⟨s.toList.map Char.toLower⟩

/-- Python str.split() with no argument: split on whitespace runs, no empties. -/
def pyWords (s : String) : List String := (s.splitOn " ").filter (fun w => w ≠ "")

/- ### Index-label resolution (lines 283-292)

The first loop scans the Greek vocabulary (name or single-character symbol,
case-sensitive substring test) and stops at the first hit; the second loop
scans the Egyptian vocabulary case-insensitively and stops at the first hit,
overwriting any Greek hit.  The label falls back to the raw heading text. -/

def findGreek (label_text : String) : Option String :=
  (GREEK_LETTERS.zip GREEK_SYMBOLS).findSome? (fun gs =>
    if strContains label_text gs.1 || strContains label_text gs.2 then some gs.1 else none)

def findGlyph (label_text : String) : Option String :=
  EGYPTIAN_GLYPHS.findSome? (fun glyph =>
    if strContains (strLower label_text) (strLower glyph) then some glyph else none)

/-- line 292 wrap-up: `index_label or label_text` after both loops ran. -/
def resolveIndexLabel (label_text : String) : String :=
  match findGlyph label_text with
  | some glyph => glyph
  | none => (findGreek label_text).getD label_text

/- ### Clue extraction (extract_clues, lines 201-239) -/

/-- One div.clue cell, abstracted to the query results extract_clues makes on
it: the hrefs of its anchor elements in document order, the (src, alt)
attributes of its first embedded img if any (missing attributes read as ""),
the first div.card with the cleaned text of its div.back when that is present,
and the cleaned text of the whole cell. -/
structure ClueCell where
  hrefs : List String
  img : Option (String × String)
  card : Option (Option String)
  text : String
deriving DecidableEq

inductive Clue
  | audio (url : String)
  | image (url : String) (alt : String)
  | text (s : String)
deriving DecidableEq

/-- Placeholder tokens skipped by the plain-text branch (line 236). -/
def PLACEHOLDER_TEXTS : List String := ["Clue 2", "Clue 3", "Clue 4", "?"]

/-- Python regex suffix test used at line 210: href matches r-string \.mp3$ . -/
def isMp3Href (href : String) : Bool := ".mp3".toList.isSuffixOf href.toList

/-- line 210: first anchor whose href ends in .mp3. -/
def audioFind (cell : ClueCell) : Option String := cell.hrefs.find? isMp3Href

/-- Classification of one clue cell, mirroring the branch ladder of
lines 208-237; `none` means the cell contributes nothing to the clue list. -/
def classifyClue (cell : ClueCell) : Option Clue :=
  match audioFind cell with
  | some href => some (.audio href)
  | none =>
    match cell.img with
    | some srcAlt => some (.image srcAlt.1 srcAlt.2)
    | none =>
      match cell.card with
      | some back =>
        match back with
        | some t => if t ≠ "" then some (.text t) else none
        | none => none
      | none =>
        if cell.text ≠ "" ∧ cell.text ∉ PLACEHOLDER_TEXTS then some (.text cell.text) else none

def extract_clues (cells : List ClueCell) : List Clue := cells.filterMap classifyClue

/- ### Answer extraction (extract_answer, lines 241-250) -/

/-- The div.answer of a grid: cleaned text of its div.back when that div
exists, and the cleaned text of the whole answer div. -/
structure AnswerDiv where
  back : Option String
  text : String
deriving DecidableEq

def extract_answer (answer : Option AnswerDiv) : String :=
  match answer with
  | some a =>
    match a.back with
    | some b => b
    | none => a.text
  | none => ""

/- ### Connection rounds (parse_connection_round, lines 252-302) -/

/-- The grid (div.round or div.grid-container) following an h3 sub-heading. -/
structure GridData where
  cells : List ClueCell
  answer : Option AnswerDiv
deriving DecidableEq

/-- One h3 sub-heading between the round header and the next round header;
grid is none when neither sibling query finds a grid (lines 275-277). -/
structure H3Section where
  label_text : String
  grid : Option GridData

structure Question where
  label : String
  clues : List Clue
  answer : String
deriving DecidableEq

/-- Connection-round extraction.  The document model supplies, when the round
header is found, the h3 sub-headings walked before the next round header
(lines 264-300); none models an absent round header (line 260-261). -/
def parse_connection_round (data : Option (List H3Section)) : List Question :=
  match data with
  | none => []
  | some sections =>
    sections.filterMap (fun s =>
      s.grid.map (fun g =>
        { label := resolveIndexLabel s.label_text
          clues := extract_clues g.cells
          answer := extract_answer g.answer }))

/- ### Wall round (parse_wall_round, lines 304-369) -/

/-- The query results for one group index inside div.wall-container: for each
div with class group{n}-clue, the cleaned text of its div.clue when present;
and, when the label with class group{n}-answer exists, the cleaned text of its
div.back when that exists. -/
structure WallGroupData where
  cells : List (Option String)
  answer_back : Option (Option String)
deriving DecidableEq

structure WallContainer where
  group1 : WallGroupData
  group2 : WallGroupData
  group3 : WallGroupData
  group4 : WallGroupData
deriving DecidableEq

inductive WallGroup
  | structured (items : List String) (connection : String)
  | raw (text : String)
deriving DecidableEq

structure Wall where
  label : String
  groups : List WallGroup
deriving DecidableEq

/-- The div.question following an h3 in round 3: its div.wall-container when
present, and the cleaned text of the whole question div (fallback path). -/
structure WallQuestionDiv where
  wall_container : Option WallContainer
  text : String

structure WallSection where
  label_text : String
  question : Option WallQuestionDiv

/-- lines 337-342: nonempty cleaned texts of the clue cells of the group. -/
def wallItems (g : WallGroupData) : List String :=
  g.cells.filterMap (fun c => c.bind (fun t => if t = "" then none else some t))

/-- lines 345-349: connection stays "" unless the answer label and its back
div both exist. -/
def wallConnection (g : WallGroupData) : String :=
  match g.answer_back with
  | some (some b) => b
  | _ => ""

/-- lines 331-355: the loop over group1..group4; a group is appended only when
it has items or a connection (line 351). -/
def parseWallGroups (c : WallContainer) : List WallGroup :=
  [c.group1, c.group2, c.group3, c.group4].foldl
    (fun groups g =>
      let items := wallItems g
      let connection := wallConnection g
      if items ≠ [] ∨ connection ≠ "" then groups ++ [.structured items connection] else groups)
    []

/-- parse_wall_raw_text (lines 371-397) over the words of the cleaned text.
The regex split on r-string \s+Answer\s* is modelled, on whitespace-normalised
text, as splitting the word list at the words equal to "Answer". -/
def parse_wall_raw_text (words : List String) : List WallGroup :=
  (words.splitOn "Answer").filterMap (fun part =>
    if part.length ≥ 5 then
      some (.structured (part.take 4) (String.intercalate " " (part.drop 4)))
    else if part ≠ [] then
      some (.raw (String.intercalate " " part))
    else none)

/-- parse_wall_round.  none models an absent round-3 header (lines 310-311);
otherwise the document model supplies the h3 sections walked before the next
round header.  A section without a div.question is skipped; with one, a wall
is always appended (line 362), its groups coming from the structured container
when present and from the raw-text fallback otherwise (lines 356-360). -/
def parse_wall_round (data : Option (List WallSection)) : List Wall :=
  match data with
  | none => []
  | some sections =>
    sections.filterMap (fun s =>
      s.question.map (fun q =>
        { label := s.label_text
          groups :=
            match q.wall_container with
            | some c => parseWallGroups c
            | none => if q.text ≠ "" then parse_wall_raw_text (pyWords q.text) else [] }))

/- ### Missing vowels round (parse_vowels_round, lines 399-460) -/

/-- The div.card inside a missing-vowels child: cleaned texts of its div.front
and div.back when present. -/
structure VowelCard where
  front : Option String
  back : Option String
deriving DecidableEq

/-- One child element of div.vowel-round, classified by the class tests of
lines 420 and 431; non-element children and children with neither class are
`other`. -/
inductive VowelChild
  | category (text : String)
  | missingVowels (card : Option VowelCard)
  | other
deriving DecidableEq

/-- A clue/answer pair.  The clue key is optional because the raw-text
fallback can append an entry holding only an answer (line 522). -/
structure VClue where
  clue : Option String
  answer : String
deriving DecidableEq

inductive VCategory
  | cat (category : String) (clues : List VClue)
  | raw (text : String)
deriving DecidableEq

/-- lines 422-426 and 447-451: flush the current category when it has a name
or clues. -/
def vowelFlush (current_category : String) (current_clues : List VClue)
    (categories : List VCategory) : List VCategory :=
  if current_category ≠ "" ∨ current_clues ≠ [] then
    categories ++ [.cat current_category current_clues]
  else categories

/-- The child loop of lines 415-444, state = (current_category, current_clues,
categories so far). -/
def vowelStep (st : String × List VClue × List VCategory) (child : VowelChild) :
    String × List VClue × List VCategory :=
  match child with
  | .category text =>
    (text, [], vowelFlush st.1 st.2.1 st.2.2)
  | .missingVowels card =>
    match card with
    | some c =>
      let clue := c.front.getD ""
      let answer := c.back.getD ""
      if clue ≠ "" ∨ answer ≠ "" then
        (st.1, st.2.1 ++ [{ clue := some clue, answer := answer }], st.2.2)
      else st
    | none => st
  | .other => st

def parse_vowels_structured (children : List VowelChild) : List VCategory :=
  let st := children.foldl vowelStep ("", [], [])
  vowelFlush st.1 st.2.1 st.2.2

/-- Python re.search r-string [aeiouAEIOU] on a word (line 484). -/
def hasVowel (w : String) : Bool := w.toList.any (fun c => "aeiouAEIOU".toList.contains c)

/-- Character class of the consonant-clue regex at line 487. -/
def isConsonantChar (c : Char) : Bool :=
  (('B' ≤ c && c ≤ 'D') || ('F' ≤ c && c ≤ 'H') || ('J' ≤ c && c ≤ 'N') ||
   ('P' ≤ c && c ≤ 'T') || ('V' ≤ c && c ≤ 'Z') ||
   ('b' ≤ c && c ≤ 'd') || ('f' ≤ c && c ≤ 'h') || ('j' ≤ c && c ≤ 'n') ||
   ('p' ≤ c && c ≤ 't') || ('v' ≤ c && c ≤ 'z') ||
   " \t\n\r\x0b\x0c".toList.contains c)

/-- Python re.match of r-string ^[B-DF-HJ-NP-TV-Zb-df-hj-np-tv-z\s]+$ . -/
def isConsonantClue (w : String) : Bool := w ≠ "" && w.toList.all isConsonantChar

/-- line 519-522: set the answer of the last clue entry, or append an
answer-only entry when there is none. -/
def setLastAnswer (phrase : String) : List VClue → List VClue
  | [] => [{ clue := none, answer := phrase }]
  | [c] => [{ c with answer := phrase }]
  | c :: cs => c :: setLastAnswer phrase cs

/-- The while loop of lines 480-540.  Fuel is the word count at entry: each
iteration consumes at least one word, so the fuel never runs out. -/
def vowelsRawGo : Nat → List String → String → List VClue → List VCategory → List VCategory
  | _, [], current_category, current_clues, categories =>
    vowelFlush current_category current_clues categories
  | 0, _ :: _, current_category, current_clues, categories =>
    vowelFlush current_category current_clues categories
  | fuel + 1, word :: rest, current_category, current_clues, categories =>
    if hasVowel word ∧ ¬ isConsonantClue word then
      let phrase_words := word :: rest.takeWhile hasVowel
      let remaining := rest.dropWhile hasVowel
      let phrase := String.intercalate " " phrase_words
      match remaining with
      | next :: _ =>
        if ¬ hasVowel next then
          vowelsRawGo fuel remaining phrase [] (vowelFlush current_category current_clues categories)
        else
          vowelsRawGo fuel remaining current_category (setLastAnswer phrase current_clues) categories
      | [] =>
        vowelsRawGo fuel [] current_category (setLastAnswer phrase current_clues) categories
    else
      let clue_words :=
        word :: rest.takeWhile (fun w => ¬ hasVowel w && isConsonantClue w)
      let remaining := rest.dropWhile (fun w => ¬ hasVowel w && isConsonantClue w)
      let clue := String.intercalate " " clue_words
      vowelsRawGo fuel remaining current_category
        (current_clues ++ [{ clue := some clue, answer := "" }]) categories

/-- parse_vowels_raw_text (lines 462-549). -/
def parse_vowels_raw_text (text : String) : List VCategory :=
  let words := pyWords text
  let categories := vowelsRawGo words.length words "" [] []
  if categories ≠ [] then categories else [.raw text]

/-- Round-4 data present when the round-4 header is found: the children of
div.vowel-round when that container exists anywhere in the document
(line 409), else the cleaned text of the next sibling of the header when there is
one (lines 454-456). -/
structure VowelRoundData where
  vowel_div : Option (List VowelChild)
  after_header : Option String

def parse_vowels_round (data : Option VowelRoundData) : List VCategory :=
  match data with
  | none => []
  | some d =>
    match d.vowel_div with
    | some children => parse_vowels_structured children
    | none =>
      match d.after_header with
      | some text => if text ≠ "" then parse_vowels_raw_text text else []
      | none => []

/- ### Episode pages (parse_episode, lines 551-595) -/

/-- The h2.episode_meta element, abstracted to the results of the two regex
searches on its cleaned text: r-strings Series\s*(\d+) and Episode\s*(\d+)
(lines 575-576; the int() conversions cannot fail on a digits-only match). -/
structure PageMeta where
  series_match : Option Nat
  ep_match : Option Nat
deriving DecidableEq

/-- A parsed episode page, abstracted to the query results parse_episode and
the four round parsers make on the document tree.  Each round field is none
exactly when the header of that round is not found. -/
structure Page where
  h1 : Option String
  episode_meta : Option PageMeta
  round1 : Option (List H3Section)
  round2 : Option (List H3Section)
  round3 : Option (List WallSection)
  round4 : Option VowelRoundData

/-- An entry of the listing produced by get_episode_urls (lines 182-187). -/
structure Stub where
  url : String
  series : String
  episode_number : Option Nat
  title : String
deriving DecidableEq

/-- The episode record built at lines 558-595.  The scraped_at wall-clock
timestamp is not modelled.  series_number is an optional key, set only when
the meta regex matched. -/
structure Episode where
  url : String
  series : String
  episode_number : Option Nat
  series_number : Option Nat
  title : String
  round1 : List Question
  round2 : List Question
  round3 : List Wall
  round4 : List VCategory
deriving DecidableEq

/-- lines 558-595 given a fetched page.  Python truthiness: `not
episode[titleKey]` is true for the empty string, and `not
episode[episodeNumberKey]` is true for None and for 0. -/
def build_episode (page : Page) (url : String) (metadata : Stub) : Episode :=
  let title :=
    match page.h1 with
    | some h => if metadata.title = "" then h else metadata.title
    | none => metadata.title
  let series_number :=
    match page.episode_meta with
    | some m => m.series_match
    | none => none
  let episode_number :=
    match page.episode_meta with
    | some m =>
      match m.ep_match with
      | some n =>
        if metadata.episode_number = none ∨ metadata.episode_number = some 0 then some n
        else metadata.episode_number
      | none => metadata.episode_number
    | none => metadata.episode_number
  { url := url
    series := metadata.series
    episode_number := episode_number
    series_number := series_number
    title := title
    round1 := parse_connection_round page.round1
    round2 := parse_connection_round page.round2
    round3 := parse_wall_round page.round3
    round4 := parse_vowels_round page.round4 }

/- ### Fetch client (fetch_page, lines 111-144)

The HTTP collaborator is a function from attempt index to the outcome of
that attempt.  A 200 response carries the page the body parses to (BeautifulSoup
construction always succeeds).  The rate-limiter calls made on each branch
mutate only the delay (§ RateLimiter above) and never change what fetch_page
returns, so they are not threaded through here. -/

inductive HTTPAttempt
  | status (code : Nat) (page : Page)
  | timeout
  | connError

/-- The retry loop of lines 113-144, returning (number of requests issued,
returned document).  fuel is the number of loop iterations left. -/
def fetch_page_go (env : Nat → HTTPAttempt) (attempt : Nat) : Nat → Nat × Option Page
  | 0 => (0, none)
  | fuel + 1 =>
    match env attempt with
    | .status code page =>
      if code = 200 then (1, some page)
      else if code = 429 then
        let r := fetch_page_go env (attempt + 1) fuel
        (r.1 + 1, r.2)
      else if 500 ≤ code then
        let r := fetch_page_go env (attempt + 1) fuel
        (r.1 + 1, r.2)
      else (1, none)
    | .timeout =>
      let r := fetch_page_go env (attempt + 1) fuel
      (r.1 + 1, r.2)
    | .connError =>
      let r := fetch_page_go env (attempt + 1) fuel
      (r.1 + 1, r.2)

def fetch_page (env : Nat → HTTPAttempt) : Nat × Option Page :=
  fetch_page_go env 0 MAX_RETRIES

/-- An attempt outcome the retry loop retries on: 429, a 5xx, or a transport
error.  Everything else either succeeds (200) or returns immediately. -/
def retriable : HTTPAttempt → Bool
  | .status code _ => (!(code = 200)) && (code = 429 || 500 ≤ code)
  | .timeout => true
  | .connError => true

/-- parse_episode (lines 551-595): fetch, return None when the fetch failed,
otherwise build the record. -/
def parse_episode (env : Nat → HTTPAttempt) (url : String) (metadata : Stub) : Option Episode :=
  (fetch_page env).2.map (fun page => build_episode page url metadata)

/- ### Progress store and orchestrator (lines 88-109 and 597-653) -/

/-- line 88: progress is a pair of a completed-URL list and a failed-URL
list. -/
structure Progress where
  completed : List String
  failed : List String
deriving DecidableEq

def initialProgress : Progress := ⟨[], []⟩

/-- The two durable artifacts, PROGRESS_FILE and OUTPUT_FILE; none models a
file absent on disk.  save_progress (lines 103-109) writes both. -/
structure SavedFiles where
  progress_file : Option Progress
  output_file : Option (List Episode)
deriving DecidableEq

def no_files : SavedFiles := ⟨none, none⟩

/-- load_progress (lines 90-101): each artifact is loaded when its file
exists, else the fields keep their constructor defaults. -/
def load_progress (files : SavedFiles) : Progress × List Episode :=
  (files.progress_file.getD initialProgress, files.output_file.getD [])

/-- In-memory scraper state during the per-URL loop, plus a count of the
periodic checkpoints performed at line 642-643. -/
structure LoopState where
  episodes : List Episode
  progress : Progress
  loop_saves : Nat
deriving DecidableEq

/-- lines 621-644: the per-URL loop.  i is the enumerate index.  A parsed
episode is appended and its URL marked completed; a failed parse appends the
URL to the failed list; every 10th iteration checkpoints. -/
def scrape_loop (env : String → Nat → HTTPAttempt) :
    List Stub → Nat → LoopState → LoopState
  | [], _, st => st
  | stub :: rest, i, st =>
    let st1 :=
      match parse_episode (env stub.url) stub.url stub with
      | some e =>
        { st with
          episodes := st.episodes ++ [e]
          progress := { st.progress with completed := st.progress.completed ++ [stub.url] } }
      | none =>
        { st with
          progress := { st.progress with failed := st.progress.failed ++ [stub.url] } }
    let st2 := if (i + 1) % 10 = 0 then { st1 with loop_saves := st1.loop_saves + 1 } else st1
    scrape_loop env rest (i + 1) st2

/-- lines 610-612: with resume, drop listing entries whose URL is already in
the completed set. -/
def resume_filter (resume : Bool) (listing : List Stub) (prog : Progress) : List Stub :=
  if resume then listing.filter (fun ep => ¬ prog.completed.contains ep.url) else listing

/-- lines 617-618: `if max_episodes:` — None and 0 are both falsy, so the cap
truncates only when it is a nonzero number. -/
def apply_cap (max_episodes : Option Nat) (l : List Stub) : List Stub :=
  match max_episodes with
  | some n => if n ≠ 0 then l.take n else l
  | none => l

/-- The work list of one run: resume filtering (lines 610-615) then the cap
(lines 617-618). -/
def to_scrape (listing : List Stub) (prog : Progress) (resume : Bool)
    (max_episodes : Option Nat) : List Stub :=
  apply_cap max_episodes (resume_filter resume listing prog)

/-- The inputs of one process invocation of run(): the listing
get_episode_urls returns, the HTTP environment for each URL, and the two
command-line options. -/
structure RunSpec where
  listing : List Stub
  env : String → Nat → HTTPAttempt
  max_episodes : Option Nat
  resume : Bool

/-- run() (lines 597-653) for one fresh process: fields start as in __init__
(episodes empty, progress empty), load_progress runs only under resume, an
empty listing returns before any save (lines 605-607), and otherwise the loop
runs over the work list and a final save_progress writes both artifacts
(line 647).  Returns the saved files and the final in-memory state. -/
def run (spec : RunSpec) (files : SavedFiles) : SavedFiles × LoopState :=
  let loaded := if spec.resume then load_progress files else (initialProgress, [])
  if spec.listing = [] then (files, ⟨loaded.2, loaded.1, 0⟩)
  else
    let stubs := to_scrape spec.listing loaded.1 spec.resume spec.max_episodes
    let final := scrape_loop spec.env stubs 0 ⟨loaded.2, loaded.1, 0⟩
    (⟨some final.progress, some final.episodes⟩, final)

/-- A whole crawl: a sequence of process invocations sharing the two durable
files. -/
def crawl (specs : List RunSpec) (files : SavedFiles) : SavedFiles :=
  specs.foldl (fun fs spec => (run spec fs).1) files

/- ### Concrete fixtures used by the evaluation theorems below -/

/-- A page with no h1, no meta heading, and none of the four round headers. -/
def emptyPage : Page := ⟨none, none, none, none, none, none⟩

def mkStub (u : String) : Stub := ⟨u, "Series 1", none, "Title"⟩

/-- Simulated response sequence 429, 500, then 200. -/
def env429_500_200 : Nat → HTTPAttempt
  | 0 => .status 429 emptyPage
  | 1 => .status 500 emptyPage
  | _ => .status 200 emptyPage

/-- Every attempt is answered 404. -/
def env404 : Nat → HTTPAttempt := fun _ => .status 404 emptyPage

/-- Every attempt times out. -/
def envTimeout : Nat → HTTPAttempt := fun _ => .timeout

/-- Every attempt succeeds immediately. -/
def env200 : Nat → HTTPAttempt := fun _ => .status 200 emptyPage

/-- A populated wall group: four items and a connection. -/
def populatedGroup (tag : String) : WallGroupData :=
  ⟨[some (tag ++ "1"), some (tag ++ "2"), some (tag ++ "3"), some (tag ++ "4")],
   some (some (tag ++ " connection"))⟩

/-- A malformed group: no clue cells and no answer label. -/
def emptyGroup : WallGroupData := ⟨[], none⟩

/-- A wall container whose fourth index-marked group is empty. -/
def cexWallContainer : WallContainer :=
  ⟨populatedGroup "a", populatedGroup "b", populatedGroup "c", emptyGroup⟩

/-- Round-3 data: the structured container is present, one group is empty. -/
def cexWallData : List WallSection :=
  [⟨"Wall 1", some ⟨some cexWallContainer, ""⟩⟩]

/-- A run over two distinct URLs, every fetch succeeding. -/
def goodSpec : RunSpec := ⟨[mkStub "a", mkStub "b"], fun _ => env200, none, true⟩

/-- A run over a listing that repeats one URL, every fetch succeeding. -/
def dupListingSpec : RunSpec :=
  ⟨[mkStub "https://ocdb.cc/episode/1/", mkStub "https://ocdb.cc/episode/1/"],
   fun _ => env200, none, true⟩

/-- Ten distinct stubs. -/
def tenStubs : List Stub :=
  [mkStub "u0", mkStub "u1", mkStub "u2", mkStub "u3", mkStub "u4",
   mkStub "u5", mkStub "u6", mkStub "u7", mkStub "u8", mkStub "u9"]

/-- A run of ten URLs that all fail with 404. -/
def tenFailSpec : RunSpec := ⟨tenStubs, fun _ => env404, none, true⟩

/-- One-URL runs failing by rejection (404) and by retry exhaustion. -/
def oneFail404Spec : RunSpec := ⟨[mkStub "u"], fun _ => env404, none, true⟩

def oneFailTimeoutSpec : RunSpec := ⟨[mkStub "u"], fun _ => envTimeout, none, true⟩

/-- Invariant of the durable files across process runs: either no run has
saved yet, or both artifacts exist, the record collection has pairwise
distinct source URLs, and every recorded URL is marked completed. -/
def FilesInv (fs : SavedFiles) : Prop :=
  fs = no_files ∨
    ∃ prog eps, fs = ⟨some prog, some eps⟩ ∧ (eps.map Episode.url).Nodup ∧
      ∀ e ∈ eps, e.url ∈ prog.completed

/- ### Theorems -/

/- Rate controller -/

theorem rl_floor_lt_ceiling : MIN_DELAY < MAX_DELAY * 10 := by
  norm_num [MIN_DELAY, MAX_DELAY]

theorem rl_step_bounds (e : RLEvent) (d : ℚ) (h1 : MIN_DELAY ≤ d)
    (h2 : d ≤ MAX_DELAY * 10) :
    MIN_DELAY ≤ e.apply d ∧ e.apply d ≤ MAX_DELAY * 10 := by
  have hMIN : MIN_DELAY = (3/2 : ℚ) := rfl
  have hMAX : MAX_DELAY = (3 : ℚ) := rfl
  cases e
  case success =>
    simp only [RLEvent.apply, RateLimiter.success]
    constructor
    · exact le_max_left _ _
    · apply max_le
      · rw [hMIN, hMAX]; norm_num
      · rw [hMAX] at h2 ⊢; nlinarith
  case failure =>
    simp only [RLEvent.apply, RateLimiter.failure, BACKOFF_FACTOR]
    constructor
    · apply le_min
      · rw [hMIN, hMAX]; norm_num
      · rw [hMIN] at h1 ⊢; nlinarith
    · exact min_le_left _ _

theorem rl_run_bounds (es : List RLEvent) (d : ℚ) (h1 : MIN_DELAY ≤ d)
    (h2 : d ≤ MAX_DELAY * 10) :
    MIN_DELAY ≤ rlRun es d ∧ rlRun es d ≤ MAX_DELAY * 10 := by
  induction es generalizing d with
  | nil => exact ⟨h1, h2⟩
  | cons e es ih =>
    have hstep := rl_step_bounds e d h1 h2
    simpa [rlRun, List.foldl_cons] using ih (e.apply d) hstep.1 hstep.2

/-- Claim C2: with floor MIN_DELAY = 1.5 s and ceiling 10 * MAX_DELAY = 30 s,
failure() strictly increases the delay unless it is at the ceiling (where it
stays), success() strictly decreases it unless it is at the floor (where it
stays), and along any sequence of success()/failure() calls from the initial
delay the delay stays within [floor, ceiling]. -/
theorem rate_limiter_monotone_and_bounded :
    (∀ d : ℚ, MIN_DELAY ≤ d → d < MAX_DELAY * 10 → d < RateLimiter.failure d) ∧
    (RateLimiter.failure (MAX_DELAY * 10) = MAX_DELAY * 10) ∧
    (∀ d : ℚ, MIN_DELAY < d → RateLimiter.success d < d) ∧
    (RateLimiter.success MIN_DELAY = MIN_DELAY) ∧
    (∀ es : List RLEvent,
      MIN_DELAY ≤ rlRun es MIN_DELAY ∧ rlRun es MIN_DELAY ≤ MAX_DELAY * 10) := by
  refine ⟨?_, ?_, ?_, ?_, ?_⟩
  · intro d h1 h2
    simp only [RateLimiter.failure, BACKOFF_FACTOR, lt_min_iff]
    have : MIN_DELAY = (3/2 : ℚ) := rfl
    rw [this] at h1
    exact ⟨h2, by nlinarith⟩
  · simp only [RateLimiter.failure, BACKOFF_FACTOR, MAX_DELAY]
    norm_num
  · intro d h1
    simp only [RateLimiter.success]
    apply max_lt h1
    have : MIN_DELAY = (3/2 : ℚ) := rfl
    rw [this] at h1
    nlinarith
  · simp only [RateLimiter.success, MIN_DELAY]
    norm_num
  · intro es
    exact rl_run_bounds es MIN_DELAY le_rfl (le_of_lt rl_floor_lt_ceiling)

theorem rate_limiter_monotone_and_bounded_witness :
    MIN_DELAY < RateLimiter.failure MIN_DELAY ∧
    RateLimiter.success (MAX_DELAY * 10) < MAX_DELAY * 10 ∧
    (MIN_DELAY ≤ rlRun [RLEvent.failure, RLEvent.success] MIN_DELAY ∧
      rlRun [RLEvent.failure, RLEvent.success] MIN_DELAY ≤ MAX_DELAY * 10) :=
  ⟨rate_limiter_monotone_and_bounded.1 MIN_DELAY le_rfl rl_floor_lt_ceiling,
   rate_limiter_monotone_and_bounded.2.2.1 (MAX_DELAY * 10) rl_floor_lt_ceiling,
   rate_limiter_monotone_and_bounded.2.2.2.2 [RLEvent.failure, RLEvent.success]⟩

/- Fetch client -/

theorem fetch_go_success_step (env : Nat → HTTPAttempt) (a f : Nat) (page : Page)
    (h : env a = HTTPAttempt.status 200 page) :
    fetch_page_go env a (f + 1) = (1, some page) := by
  simp [fetch_page_go, h]

theorem fetch_go_retry_step (env : Nat → HTTPAttempt) (a f : Nat)
    (h : retriable (env a) = true) :
    fetch_page_go env a (f + 1) =
      ((fetch_page_go env (a + 1) f).1 + 1, (fetch_page_go env (a + 1) f).2) := by
  cases henv : env a with
  | status code page =>
    rw [henv] at h
    simp only [retriable, Bool.and_eq_true, Bool.or_eq_true, decide_eq_true_eq,
      Bool.not_eq_eq_eq_not, Bool.not_true, decide_eq_false_iff_not] at h
    obtain ⟨h200, hr⟩ := h
    rcases hr with h429 | h5
    · simp [fetch_page_go, henv, h200, h429]
    · by_cases h429 : code = 429
      · simp [fetch_page_go, henv, h200, h429]
      · simp [fetch_page_go, henv, h200, h429, h5]
  | timeout => simp [fetch_page_go, henv]
  | connError => simp [fetch_page_go, henv]

theorem fetch_go_terminal_step (env : Nat → HTTPAttempt) (a f : Nat) (code : Nat) (page : Page)
    (h : env a = HTTPAttempt.status code page)
    (h200 : code ≠ 200) (h429 : code ≠ 429) (h5 : code < 500) :
    fetch_page_go env a (f + 1) = (1, none) := by
  simp [fetch_page_go, h, h200, h429, Nat.not_le.mpr h5]

theorem fetch_page_go_count_le (env : Nat → HTTPAttempt) :
    ∀ (f a : Nat), (fetch_page_go env a f).1 ≤ f := by
  intro f
  induction f with
  | zero => intro a; simp [fetch_page_go]
  | succ f ih =>
    intro a
    cases henv : env a with
    | status code page =>
      by_cases h200 : code = 200
      · rw [fetch_go_success_step env a f page (h200 ▸ henv)]
        omega
      · by_cases hr : retriable (env a) = true
        · rw [fetch_go_retry_step env a f hr]
          have := ih (a + 1)
          simp only []
          omega
        · have h429 : code ≠ 429 := by
            intro hc
            apply hr
            simp [retriable, henv, hc]
          have h5 : code < 500 := by
            by_contra hc
            apply hr
            simp [retriable, henv, h200, Nat.le_of_not_lt hc]
          rw [fetch_go_terminal_step env a f code page henv h200 h429 h5]
          omega
    | timeout =>
      rw [fetch_go_retry_step env a f (by simp [retriable, henv])]
      have := ih (a + 1)
      simp only []
      omega
    | connError =>
      rw [fetch_go_retry_step env a f (by simp [retriable, henv])]
      have := ih (a + 1)
      simp only []
      omega

/-- Claim C1: fetch_page issues at most MAX_RETRIES = 5 requests; on the
simulated status sequence 429, 500, 200 it issues exactly 3 requests and
returns the parsed document; on a first status that is neither 200 nor 429
nor a 5xx (for instance 404) it issues exactly 1 request and returns the
terminal failure value immediately, with no retry. -/
theorem fetch_page_retry_policy :
    (∀ env, (fetch_page env).1 ≤ MAX_RETRIES) ∧
    (∀ env p0 p1 page,
      env 0 = HTTPAttempt.status 429 p0 → env 1 = HTTPAttempt.status 500 p1 →
      env 2 = HTTPAttempt.status 200 page →
      fetch_page env = (3, some page)) ∧
    (∀ env code page, env 0 = HTTPAttempt.status code page →
      code ≠ 200 → code ≠ 429 → code < 500 →
      fetch_page env = (1, none)) := by
  refine ⟨?_, ?_, ?_⟩
  · intro env
    exact fetch_page_go_count_le env MAX_RETRIES 0
  · intro env p0 p1 page h0 h1 h2
    have s2 : fetch_page_go env 2 3 = (1, some page) := fetch_go_success_step env 2 2 page h2
    have s1 : fetch_page_go env 1 4 = (2, some page) := by
      have h := fetch_go_retry_step env 1 3 (by simp [retriable, h1])
      rw [show fetch_page_go env 1 4 = fetch_page_go env 1 (3 + 1) from rfl, h, s2]
    have s0 : fetch_page_go env 0 5 = (3, some page) := by
      have h := fetch_go_retry_step env 0 4 (by simp [retriable, h0])
      rw [show fetch_page_go env 0 5 = fetch_page_go env 0 (4 + 1) from rfl, h, s1]
    exact s0
  · intro env code page h0 h200 h429 h5
    exact fetch_go_terminal_step env 0 4 code page h0 h200 h429 h5

theorem fetch_page_retry_policy_witness :
    (fetch_page envTimeout).1 ≤ MAX_RETRIES ∧
    fetch_page env429_500_200 = (3, some emptyPage) ∧
    fetch_page env404 = (1, none) :=
  ⟨fetch_page_retry_policy.1 envTimeout,
   fetch_page_retry_policy.2.1 env429_500_200 emptyPage emptyPage emptyPage rfl rfl rfl,
   fetch_page_retry_policy.2.2 env404 404 emptyPage rfl (by decide) (by decide) (by decide)⟩

theorem fetch_go_exhaust (env : Nat → HTTPAttempt)
    (h : ∀ k, retriable (env k) = true) :
    ∀ (f a : Nat), fetch_page_go env a f = (f, none) := by
  intro f
  induction f with
  | zero => intro a; rfl
  | succ f ih =>
    intro a
    rw [fetch_go_retry_step env a f (h a), ih (a + 1)]

/-- Claim C4 counterexample: a 404 rejection and a full retry exhaustion
produce the exact same fetch result (None, with no distinguishing tag), and
two one-URL runs that fail for those two different reasons save the exact
same progress artifact — a bare failed-URL list carrying no status reason. -/
theorem failure_reason_not_recorded_counterexample :
    (fetch_page env404).2 = (fetch_page envTimeout).2 ∧
    (run oneFail404Spec no_files).1.progress_file =
      (run oneFailTimeoutSpec no_files).1.progress_file ∧
    (run oneFail404Spec no_files).1.progress_file =
      some { completed := [], failed := ["u"] } := by
  refine ⟨rfl, rfl, rfl⟩

/-- Claim C4 amended: the progress store records failed URLs as a bare list
(each failing URL is appended to it), with no mapping to a status reason; the
two failure outcomes of fetch_page are not distinguishable tags — retry
exhaustion and a non-200/non-429/non-5xx status both surface as the same
value None (only the request count differs). -/
theorem failure_untagged_and_failed_list :
    (∀ env, (∀ k, retriable (env k) = true) → fetch_page env = (MAX_RETRIES, none)) ∧
    (∀ env code page, env 0 = HTTPAttempt.status code page →
      code ≠ 200 → code ≠ 429 → code < 500 → fetch_page env = (1, none)) ∧
    (∀ env i st stub, parse_episode (env stub.url) stub.url stub = none →
      (scrape_loop env [stub] i st).progress.failed = st.progress.failed ++ [stub.url] ∧
      (scrape_loop env [stub] i st).progress.completed = st.progress.completed ∧
      (scrape_loop env [stub] i st).episodes = st.episodes) := by
  refine ⟨?_, ?_, ?_⟩
  · intro env h
    exact fetch_go_exhaust env h MAX_RETRIES 0
  · intro env code page h0 h200 h429 h5
    exact fetch_go_terminal_step env 0 4 code page h0 h200 h429 h5
  · intro env i st stub hp
    refine ⟨?_, ?_, ?_⟩ <;>
      by_cases h10 : (i + 1) % 10 = 0 <;>
        simp [scrape_loop, hp, h10]

theorem failure_untagged_and_failed_list_witness :
    fetch_page envTimeout = (MAX_RETRIES, none) ∧
    fetch_page env404 = (1, none) ∧
    (scrape_loop (fun _ => env404) [mkStub "u"] 0 ⟨[], initialProgress, 0⟩).progress.failed =
      initialProgress.failed ++ ["u"] :=
  ⟨failure_untagged_and_failed_list.1 envTimeout (fun _ => rfl),
   failure_untagged_and_failed_list.2.1 env404 404 emptyPage rfl (by decide) (by decide)
     (by decide),
   (failure_untagged_and_failed_list.2.2 (fun _ => env404) 0 ⟨[], initialProgress, 0⟩
     (mkStub "u") rfl).1⟩

/- Episode extraction -/

/-- Claim C5: parse_episode returns None exactly when the document could not
be fetched; a fetched document always yields a record; and each of the four
round sub-extractions yields the empty collection when its round section is
absent from the document. -/
theorem parse_episode_totality :
    (∀ env url md, parse_episode env url md = none ↔ (fetch_page env).2 = none) ∧
    (∀ env url md page, (fetch_page env).2 = some page →
      parse_episode env url md = some (build_episode page url md)) ∧
    parse_connection_round none = [] ∧
    parse_wall_round none = [] ∧
    parse_vowels_round none = [] := by
  refine ⟨?_, ?_, rfl, rfl, rfl⟩
  · intro env url md
    unfold parse_episode
    cases (fetch_page env).2 <;> simp
  · intro env url md page h
    unfold parse_episode
    rw [h]
    rfl

theorem parse_episode_totality_witness :
    parse_episode env404 "u" (mkStub "u") = none ∧
    parse_episode env200 "u" (mkStub "u") = some (build_episode emptyPage "u" (mkStub "u")) :=
  ⟨(parse_episode_totality.1 env404 "u" (mkStub "u")).mpr rfl,
   parse_episode_totality.2.1 env200 "u" (mkStub "u") emptyPage rfl⟩

/- Orchestrator: resume filtering and the cap -/

theorem apply_cap_sublist (cap : Option Nat) (l : List Stub) :
    (apply_cap cap l).Sublist l := by
  cases cap with
  | none => exact List.Sublist.refl l
  | some n =>
    simp only [apply_cap]
    split
    · exact List.take_sublist n l
    · exact List.Sublist.refl l

theorem to_scrape_not_completed (listing : List Stub) (prog : Progress)
    (cap : Option Nat) (s : Stub) (hs : s ∈ to_scrape listing prog true cap) :
    s.url ∉ prog.completed := by
  have hmem : s ∈ resume_filter true listing prog :=
    (apply_cap_sublist cap _).subset hs
  simp only [resume_filter, if_pos, List.mem_filter] at hmem
  simpa using hmem.2

/-- Claim C6: with resume enabled, every URL already in the completed set is
excluded from the work list of the run (for any cap), and the cap is applied after
the resume filtering: a nonzero cap n makes the work list the first n entries
of the fully filtered list. -/
theorem resume_filtering_before_cap :
    (∀ listing prog cap u, u ∈ prog.completed →
      u ∉ (to_scrape listing prog true cap).map Stub.url) ∧
    (∀ listing prog n, n ≠ 0 →
      to_scrape listing prog true (some n) = (to_scrape listing prog true none).take n) := by
  constructor
  · intro listing prog cap u hu hmem
    obtain ⟨s, hs, hurl⟩ := List.mem_map.mp hmem
    exact to_scrape_not_completed listing prog cap s hs (hurl ▸ hu)
  · intro listing prog n hn
    simp [to_scrape, apply_cap, hn]

theorem resume_filtering_before_cap_witness :
    "a" ∉ (to_scrape [mkStub "a", mkStub "b"] ⟨["a"], []⟩ true (some 1)).map Stub.url ∧
    to_scrape [mkStub "a", mkStub "b"] ⟨["a"], []⟩ true (some 1) =
      (to_scrape [mkStub "a", mkStub "b"] ⟨["a"], []⟩ true none).take 1 :=
  ⟨resume_filtering_before_cap.1 [mkStub "a", mkStub "b"] ⟨["a"], []⟩ (some 1) "a"
     (by decide),
   resume_filtering_before_cap.2 [mkStub "a", mkStub "b"] ⟨["a"], []⟩ 1 (by decide)⟩

/- Record-URL uniqueness across runs -/

theorem parse_episode_url (env : Nat → HTTPAttempt) (u : String) (md : Stub)
    (e : Episode) (h : parse_episode env u md = some e) : e.url = u := by
  unfold parse_episode at h
  cases hf : (fetch_page env).2 with
  | none => rw [hf] at h; simp at h
  | some page =>
    rw [hf] at h
    simp at h
    rw [← h]
    rfl

theorem scrape_loop_appends (env : String → Nat → HTTPAttempt) :
    ∀ (stubs : List Stub) (i : Nat) (st : LoopState),
      ∃ new : List Episode,
        (scrape_loop env stubs i st).episodes = st.episodes ++ new ∧
        (scrape_loop env stubs i st).progress.completed =
          st.progress.completed ++ new.map Episode.url ∧
        (new.map Episode.url).Sublist (stubs.map Stub.url) := by
  intro stubs
  induction stubs with
  | nil =>
    intro i st
    exact ⟨[], by simp [scrape_loop], by simp [scrape_loop], by simp⟩
  | cons stub rest ih =>
    intro i st
    cases hp : parse_episode (env stub.url) stub.url stub with
    | some e =>
      have hurl : e.url = stub.url := parse_episode_url (env stub.url) stub.url stub e hp
      by_cases h10 : (i + 1) % 10 = 0
      all_goals
        obtain ⟨new, h1, h2, h3⟩ := ih (i + 1)
          { episodes := st.episodes ++ [e]
            progress := { st.progress with completed := st.progress.completed ++ [stub.url] }
            loop_saves := if (i + 1) % 10 = 0 then st.loop_saves + 1 else st.loop_saves }
      all_goals
        refine ⟨e :: new, ?_, ?_, ?_⟩
        · rw [show scrape_loop env (stub :: rest) i st =
            scrape_loop env rest (i + 1)
              { episodes := st.episodes ++ [e]
                progress :=
                  { st.progress with completed := st.progress.completed ++ [stub.url] }
                loop_saves := if (i + 1) % 10 = 0 then st.loop_saves + 1 else st.loop_saves }
            from by simp [scrape_loop, hp, h10]]
          rw [h1]
          simp
        · rw [show scrape_loop env (stub :: rest) i st =
            scrape_loop env rest (i + 1)
              { episodes := st.episodes ++ [e]
                progress :=
                  { st.progress with completed := st.progress.completed ++ [stub.url] }
                loop_saves := if (i + 1) % 10 = 0 then st.loop_saves + 1 else st.loop_saves }
            from by simp [scrape_loop, hp, h10]]
          rw [h2]
          simp [hurl]
        · simpa [hurl] using h3.cons₂ stub.url
    | none =>
      by_cases h10 : (i + 1) % 10 = 0
      all_goals
        obtain ⟨new, h1, h2, h3⟩ := ih (i + 1)
          { episodes := st.episodes
            progress := { st.progress with failed := st.progress.failed ++ [stub.url] }
            loop_saves := if (i + 1) % 10 = 0 then st.loop_saves + 1 else st.loop_saves }
      all_goals
        refine ⟨new, ?_, ?_, ?_⟩
        · rw [show scrape_loop env (stub :: rest) i st =
            scrape_loop env rest (i + 1)
              { episodes := st.episodes
                progress := { st.progress with failed := st.progress.failed ++ [stub.url] }
                loop_saves := if (i + 1) % 10 = 0 then st.loop_saves + 1 else st.loop_saves }
            from by simp [scrape_loop, hp, h10]]
          exact h1
        · rw [show scrape_loop env (stub :: rest) i st =
            scrape_loop env rest (i + 1)
              { episodes := st.episodes
                progress := { st.progress with failed := st.progress.failed ++ [stub.url] }
                loop_saves := if (i + 1) % 10 = 0 then st.loop_saves + 1 else st.loop_saves }
            from by simp [scrape_loop, hp, h10]]
          exact h2
        · exact h3.cons stub.url

theorem to_scrape_stub_sublist (listing : List Stub) (prog : Progress) (r : Bool)
    (cap : Option Nat) : (to_scrape listing prog r cap).Sublist listing := by
  refine (apply_cap_sublist cap _).trans ?_
  unfold resume_filter
  split
  · exact List.filter_sublist listing
  · exact List.Sublist.refl listing

theorem run_preserves_inv (spec : RunSpec) (files : SavedFiles)
    (hlist : (spec.listing.map Stub.url).Nodup) (hinv : FilesInv files) :
    FilesInv (run spec files).1 := by
  by_cases hempty : spec.listing = []
  · simpa [run, hempty] using hinv
  · have key : ∀ (prog0 : Progress) (eps0 : List Episode),
        (eps0.map Episode.url).Nodup →
        (∀ e ∈ eps0, e.url ∈ prog0.completed) →
        ∀ stubs : List Stub, (stubs.map Stub.url).Nodup →
        (∀ s ∈ stubs, s.url ∉ prog0.completed) →
        FilesInv ⟨some (scrape_loop spec.env stubs 0 ⟨eps0, prog0, 0⟩).progress,
                  some (scrape_loop spec.env stubs 0 ⟨eps0, prog0, 0⟩).episodes⟩ := by
      intro prog0 eps0 hnd hmem stubs hstubs hdisj
      obtain ⟨new, h1, h2, h3⟩ := scrape_loop_appends spec.env stubs 0 ⟨eps0, prog0, 0⟩
      right
      refine ⟨_, _, rfl, ?_, ?_⟩
      · rw [h1, List.map_append]
        refine List.Nodup.append hnd (h3.nodup hstubs) ?_
        intro u hu1 hu2
        obtain ⟨e, he, heq⟩ := List.mem_map.mp hu1
        have hc : u ∈ prog0.completed := heq ▸ hmem e he
        obtain ⟨s, hsm, hseq⟩ := List.mem_map.mp (h3.subset hu2)
        exact hdisj s hsm (hseq ▸ hc)
      · intro e he
        rw [h1] at he
        rw [h2]
        rcases List.mem_append.mp he with hL | hR
        · exact List.mem_append_left _ (hmem e hL)
        · exact List.mem_append_right _ (List.mem_map_of_mem Episode.url hR)
    have hsubnd : ∀ prog0 : Progress,
        ((to_scrape spec.listing prog0 spec.resume spec.max_episodes).map Stub.url).Nodup :=
      fun prog0 =>
        ((to_scrape_stub_sublist spec.listing prog0 spec.resume spec.max_episodes).map
          Stub.url).nodup hlist
    cases hres : spec.resume with
    | false =>
      simp only [run, hres, Bool.false_eq_true, if_false, if_neg hempty]
      exact key initialProgress [] (by simp) (by simp)
        (to_scrape spec.listing initialProgress false spec.max_episodes)
        (hres ▸ hsubnd initialProgress)
        (fun s _ h => by simp [initialProgress] at h)
    | true =>
      rcases hinv with hnone | ⟨prog, eps, hfs, hnd, hmem⟩
      · subst hnone
        simp only [run, hres, if_true, if_neg hempty, load_progress, no_files,
          Option.getD_none]
        exact key initialProgress [] (by simp) (by simp)
          (to_scrape spec.listing initialProgress true spec.max_episodes)
          (hres ▸ hsubnd initialProgress)
          (fun s hs => to_scrape_not_completed spec.listing initialProgress
            spec.max_episodes s hs)
      · subst hfs
        simp only [run, hres, if_true, if_neg hempty, load_progress,
          Option.getD_some]
        exact key prog eps hnd hmem
          (to_scrape spec.listing prog true spec.max_episodes)
          (hres ▸ hsubnd prog)
          (fun s hs => to_scrape_not_completed spec.listing prog
            spec.max_episodes s hs)

theorem crawl_preserves_inv (specs : List RunSpec)
    (h : ∀ spec ∈ specs, (spec.listing.map Stub.url).Nodup) :
    ∀ files, FilesInv files → FilesInv (crawl specs files) := by
  induction specs with
  | nil => intro files hf; simpa [crawl] using hf
  | cons spec rest ih =>
    intro files hf
    have h1 := run_preserves_inv spec files (h spec (by simp)) hf
    have h2 := ih (fun s hs => h s (by simp [hs])) (run spec files).1 h1
    simpa [crawl] using h2

/-- Claim C7 amended: across any sequence of process runs (any resume flags,
caps, and per-URL outcomes) in which the listing of every run carries pairwise
distinct URLs, the accumulated record collection never contains two
EpisodeRecords with the same source URL. -/
theorem crawl_record_urls_unique (specs : List RunSpec)
    (h : ∀ spec ∈ specs, (spec.listing.map Stub.url).Nodup)
    (eps : List Episode) (heps : (crawl specs no_files).output_file = some eps) :
    (eps.map Episode.url).Nodup := by
  have hinv := crawl_preserves_inv specs h no_files (Or.inl rfl)
  rcases hinv with hnone | ⟨prog, eps', hfs, hnd, _⟩
  · rw [hnone] at heps
    simp [no_files] at heps
  · rw [hfs] at heps
    simp only [Option.some.injEq] at heps
    exact heps ▸ hnd

theorem crawl_record_urls_unique_witness :
    (([build_episode emptyPage "a" (mkStub "a"),
       build_episode emptyPage "b" (mkStub "b")]).map Episode.url).Nodup :=
  crawl_record_urls_unique [goodSpec]
    (by
      intro s hs
      rw [List.mem_singleton] at hs
      subst hs
      decide)
    [build_episode emptyPage "a" (mkStub "a"), build_episode emptyPage "b" (mkStub "b")]
    rfl

/-- Claim C7 counterexample: a reachable crawl state violates the uniqueness
claim as stated — one run whose listing repeats a URL (nothing in the scraper
deduplicates the listing) appends two records with the same source URL. -/
theorem crawl_record_urls_unique_counterexample :
    ((crawl [dupListingSpec] no_files).output_file.getD []).map Episode.url =
      ["https://ocdb.cc/episode/1/", "https://ocdb.cc/episode/1/"] ∧
    ¬ ((((crawl [dupListingSpec] no_files).output_file.getD []).map Episode.url).Nodup) := by
  exact ⟨rfl, by decide⟩

/- Periodic checkpointing -/

theorem scrape_loop_saves (env : String → Nat → HTTPAttempt) :
    ∀ (stubs : List Stub) (i : Nat) (st : LoopState),
      (scrape_loop env stubs i st).loop_saves =
        st.loop_saves + ((i + stubs.length) / 10 - i / 10) := by
  intro stubs
  induction stubs with
  | nil => intro i st; simp [scrape_loop]
  | cons stub rest ih =>
    intro i st
    have hmono1 : i / 10 ≤ (i + 1) / 10 := Nat.div_le_div_right (Nat.le_succ i)
    have hmono2 : (i + 1) / 10 ≤ (i + 1 + rest.length) / 10 :=
      Nat.div_le_div_right (Nat.le_add_right _ _)
    cases hp : parse_episode (env stub.url) stub.url stub with
    | some e =>
      by_cases h10 : (i + 1) % 10 = 0 <;>
        · rw [show scrape_loop env (stub :: rest) i st =
            scrape_loop env rest (i + 1)
              { episodes := st.episodes ++ [e]
                progress :=
                  { st.progress with completed := st.progress.completed ++ [stub.url] }
                loop_saves := if (i + 1) % 10 = 0 then st.loop_saves + 1 else st.loop_saves }
            from by simp [scrape_loop, hp, h10], ih]
          simp [h10]
          omega
    | none =>
      by_cases h10 : (i + 1) % 10 = 0 <;>
        · rw [show scrape_loop env (stub :: rest) i st =
            scrape_loop env rest (i + 1)
              { episodes := st.episodes
                progress := { st.progress with failed := st.progress.failed ++ [stub.url] }
                loop_saves := if (i + 1) % 10 = 0 then st.loop_saves + 1 else st.loop_saves }
            from by simp [scrape_loop, hp, h10], ih]
          simp [h10]
          omega

/-- Claim C9 amended: during the per-URL loop the scraper checkpoints the
progress store and the record collection after every 10 processed URLs,
counting loop iterations — attempts, successes and failures alike — not
completed episodes: a loop over n URLs performs exactly n / 10 periodic
checkpoints whatever the outcomes are. -/
theorem checkpoint_every_ten_attempts (env : String → Nat → HTTPAttempt)
    (stubs : List Stub) (st : LoopState) :
    (scrape_loop env stubs 0 st).loop_saves = st.loop_saves + stubs.length / 10 := by
  have h := scrape_loop_saves env stubs 0 st
  simpa using h

/-- Claim C9 counterexample: a run of ten URLs that all fail — zero completed
episodes — still performs a periodic checkpoint after the tenth iteration, so
the checkpoint cadence counts attempts, not completions. -/
theorem checkpoint_counts_attempts_counterexample :
    (run tenFailSpec no_files).2.progress.completed = [] ∧
    (run tenFailSpec no_files).2.loop_saves = 1 := by
  exact ⟨rfl, rfl⟩

/- Clue classification -/

/-- Claim C8: per clue cell the classification precedence is audio link
(first href ending in .mp3) over embedded image over revealable card back
over plain text — a present card suppresses the plain-text branch even when
its back is missing or empty; a cell whose only yield is placeholder text
(one of "Clue 2", "Clue 3", "Clue 4", "?") contributes nothing to the clue
list; and a cell containing only an audio link ending in .mp3 yields an audio
clue carrying that URL. -/
theorem clue_classification_precedence :
    (∀ cell href, audioFind cell = some href →
      classifyClue cell = some (Clue.audio href)) ∧
    (∀ cell src alt, audioFind cell = none → cell.img = some (src, alt) →
      classifyClue cell = some (Clue.image src alt)) ∧
    (∀ cell t, audioFind cell = none → cell.img = none → cell.card = some (some t) →
      t ≠ "" → classifyClue cell = some (Clue.text t)) ∧
    (∀ cell back, audioFind cell = none → cell.img = none → cell.card = some back →
      (∀ t, back = some t → t = "") → classifyClue cell = none) ∧
    (∀ cell, audioFind cell = none → cell.img = none → cell.card = none →
      cell.text ∈ PLACEHOLDER_TEXTS → classifyClue cell = none) ∧
    (∀ cells₁ cells₂ cell, classifyClue cell = none →
      extract_clues (cells₁ ++ cell :: cells₂) = extract_clues (cells₁ ++ cells₂)) ∧
    (∀ url text, isMp3Href url = true →
      classifyClue ⟨[url], none, none, text⟩ = some (Clue.audio url)) := by
  refine ⟨?_, ?_, ?_, ?_, ?_, ?_, ?_⟩
  · intro cell href h
    simp [classifyClue, h]
  · intro cell src alt ha hi
    simp [classifyClue, ha, hi]
  · intro cell t ha hi hc ht
    simp [classifyClue, ha, hi, hc, ht]
  · intro cell back ha hi hc hb
    cases back with
    | some t => simp [classifyClue, ha, hi, hc, hb t rfl]
    | none => simp [classifyClue, ha, hi, hc]
  · intro cell ha hi hc htext
    simp [classifyClue, ha, hi, hc, htext]
  · intro cells₁ cells₂ cell h
    simp [extract_clues, List.filterMap_append, List.filterMap_cons, h]
  · intro url text h
    simp [classifyClue, audioFind, List.find?, h]

theorem clue_classification_precedence_witness :
    classifyClue ⟨["song.mp3"], some ("pic.png", "alt"), some (some "Back"), "Text"⟩ =
      some (Clue.audio "song.mp3") ∧
    classifyClue ⟨[], none, none, "Clue 3"⟩ = none ∧
    extract_clues [⟨[], none, none, "Real clue"⟩, ⟨[], none, none, "Clue 3"⟩] =
      extract_clues [⟨[], none, none, "Real clue"⟩] ∧
    classifyClue ⟨["https://x/y.mp3"], none, none, ""⟩ =
      some (Clue.audio "https://x/y.mp3") :=
  ⟨clue_classification_precedence.1
     ⟨["song.mp3"], some ("pic.png", "alt"), some (some "Back"), "Text"⟩ "song.mp3"
     (by decide),
   clue_classification_precedence.2.2.2.2.1 ⟨[], none, none, "Clue 3"⟩ rfl rfl rfl
     (by decide),
   by
     have h := clue_classification_precedence.2.2.2.2.2.1 [⟨[], none, none, "Real clue"⟩]
       [] ⟨[], none, none, "Clue 3"⟩ (by decide)
     simpa using h,
   clue_classification_precedence.2.2.2.2.2.2 "https://x/y.mp3" "" (by decide)⟩

/- Index-label vocabularies -/

/-- Claim C10: when a sub-heading matches both vocabularies the Egyptian
glyph wins, because the glyph loop runs after the Greek loop and overwrites
its hit; Greek matching is case-sensitive (Gamma matches, gamma does not)
while Egyptian matching is case-insensitive (both casings of Eye of Horus
match). -/
theorem glyph_overrides_greek :
    (∀ t g e, findGreek t = some g → findGlyph t = some e →
      resolveIndexLabel t = e) ∧
    (findGreek "Gamma heading" = some "Gamma" ∧ findGreek "gamma heading" = none) ∧
    (findGlyph "Eye of Horus" = some "Eye of Horus" ∧
      findGlyph "EYE OF HORUS" = some "Eye of Horus") ∧
    resolveIndexLabel "Gamma Lion" = "Lion" := by
  refine ⟨?_, ⟨?_, ?_⟩, ⟨?_, ?_⟩, ?_⟩
  · intro t g e _ he
    simp [resolveIndexLabel, he]
  all_goals decide

theorem glyph_overrides_greek_witness :
    resolveIndexLabel "Gamma Lion" = "Lion" :=
  glyph_overrides_greek.1 "Gamma Lion" "Gamma" "Lion" (by decide) (by decide)

/- Wall extraction on a malformed group -/

/-- Claim C3 counterexample: with the structured wall container present and
the fourth index-marked group holding zero item cells and no connection, the
extracted wall contains only the 3 populated groups — not 4 — and no group
with empty items and empty connection appears in it. -/
theorem wall_empty_group_counterexample :
    parse_wall_round (some cexWallData) =
      [⟨"Wall 1",
        [WallGroup.structured ["a1", "a2", "a3", "a4"] "a connection",
         WallGroup.structured ["b1", "b2", "b3", "b4"] "b connection",
         WallGroup.structured ["c1", "c2", "c3", "c4"] "c connection"]⟩] ∧
    (parse_wall_round (some cexWallData)).map (fun w => w.groups.length) = [3] ∧
    WallGroup.structured [] "" ∉
      ((parse_wall_round (some cexWallData)).headD ⟨"", []⟩).groups := by
  exact ⟨rfl, rfl, by decide⟩

/-- Claim C3 amended: on a wall whose structured container is present and
whose fourth index-marked group has zero item cells and an empty connection
while the other three are populated, extraction does not fail the page — the
wall is still produced under its label — but it contains exactly the 3
populated groups; the empty group is omitted rather than recorded. -/
theorem wall_empty_group_omitted (label raw : String) (c : WallContainer)
    (h1 : wallItems c.group1 ≠ [] ∨ wallConnection c.group1 ≠ "")
    (h2 : wallItems c.group2 ≠ [] ∨ wallConnection c.group2 ≠ "")
    (h3 : wallItems c.group3 ≠ [] ∨ wallConnection c.group3 ≠ "")
    (h4i : wallItems c.group4 = []) (h4c : wallConnection c.group4 = "") :
    parse_wall_round (some [⟨label, some ⟨some c, raw⟩⟩]) =
      [⟨label,
        [WallGroup.structured (wallItems c.group1) (wallConnection c.group1),
         WallGroup.structured (wallItems c.group2) (wallConnection c.group2),
         WallGroup.structured (wallItems c.group3) (wallConnection c.group3)]⟩] := by
  simp [parse_wall_round, parseWallGroups, h1, h2, h3, h4i, h4c]

theorem wall_empty_group_omitted_witness :
    parse_wall_round (some cexWallData) =
      [⟨"Wall 1",
        [WallGroup.structured (wallItems (populatedGroup "a"))
           (wallConnection (populatedGroup "a")),
         WallGroup.structured (wallItems (populatedGroup "b"))
           (wallConnection (populatedGroup "b")),
         WallGroup.structured (wallItems (populatedGroup "c"))
           (wallConnection (populatedGroup "c"))]⟩] :=
  wall_empty_group_omitted "Wall 1" "" cexWallContainer
    (by decide) (by decide) (by decide) (by decide) (by decide)
